import Mathlib

/-!
# Verification of the AlphaStack DCF valuation core (`app3.py`)

Shallow embedding of the valuation logic of `src/app3.py` over `ℚ`
(Python floats are modelled as rationals).  The embedded pieces are:

* the input locals built at lines 116–123 (`revenue`, `ebit`, `cash`,
  `debt`, `shares`, `capex`, `dep`, `wc`) — bundled into `Snapshot` and
  `Assumptions`;
* the DCF model `run_dcf` (lines 126–143), including Python's 2-decimal
  rounding of each row and the error behaviour of Python division
  (`ZeroDivisionError`) and of indexing an empty list (`IndexError`),
  modelled with `Except`;
* the market-comparison verdict `pct` / `tag` (lines 172–174);
* the stress-test drawdown replay (lines 202–204).
-/

/-- Errors a run of the embedded code can raise.  Python raises
`ZeroDivisionError` on float division by zero and `IndexError` on
`rows[-1]` for an empty `rows`; the outer `except` at line 211 catches
both.  The source contains no `InvalidAssumptions` / `InvalidSnapshot`
validation of its own. -/
inductive DcfError where
  | zeroDivision
  | indexError
deriving DecidableEq, Repr

/-- Python's `round` to an integer: round-half-to-even. -/
def roundHalfEven (x : ℚ) : ℤ :=
  let n := ⌊x⌋
  let r := x - n
  if r < 1 / 2 then n
  else if 1 / 2 < r then n + 1
  else if n % 2 = 0 then n else n + 1

/-- Python's `round(x, 2)`: round to 2 decimal places, half to even. -/
def round2 (x : ℚ) : ℚ := (roundHalfEven (x * 100) : ℚ) / 100

/-- The base-year financial inputs assembled at lines 116–123 of
`app3.py`.  `ebit` mirrors the `EBIT` column available from an uploaded
financials file (`df_fin["EBIT"]`, `none` when no file is uploaded);
note that line 117 recomputes ebit from revenue and the margin slider
and never reads this column directly. `capex`, `dep` and `wc` are the
values of the locals of the same names (0 when nothing is uploaded). -/
structure Snapshot where
  ebit : Option ℚ
  revenue : ℚ
  cash : ℚ
  debt : ℚ
  shares : ℚ
  capex : ℚ
  dep : ℚ
  wc : ℚ
deriving DecidableEq, Repr

/-- The slider-supplied forecast assumptions (lines 85–99). -/
structure Assumptions where
  revenue_growth : ℚ
  ebit_margin : ℚ
  tax_rate : ℚ
  discount_rate : ℚ
  terminal_growth : ℚ
  forecast_years : ℕ
deriving DecidableEq, Repr

/-- Line 117: `ebit = revenue*(ebit_margin/100)` — computed from the
margin slider unconditionally, whether or not `df_fin["EBIT"]` exists. -/
def ebitUsed (s : Snapshot) (a : Assumptions) : ℚ :=
  s.revenue * (a.ebit_margin / 100)

/-- Lines 127–129: `tax = ebit*(tax_rate/100)`, `nopat = ebit - tax`,
`base = nopat + dep - capex - wc`. -/
def baseOf (s : Snapshot) (a : Assumptions) : ℚ :=
  let ebit := ebitUsed s a
  let tax := ebit * (a.tax_rate / 100)
  let nopat := ebit - tax
  nopat + s.dep - s.capex - s.wc

/-- One row appended at line 134: `(y, round(proj,2), round(disc,2))`
with `proj = base*((1+revenue_growth/100)**y)` and
`disc = proj/((1+discount_rate/100)**y)` (lines 132–133). -/
def dcfRow (base g dr : ℚ) (y : ℕ) : ℕ × ℚ × ℚ :=
  (y, round2 (base * (1 + g / 100) ^ y),
    round2 (base * (1 + g / 100) ^ y / (1 + dr / 100) ^ y))

/-- The `rows` list built by the loop at lines 130–134, for
`y in range(1, forecast_years+1)`. -/
def dcfRows (base g dr : ℚ) (N : ℕ) : List (ℕ × ℚ × ℚ) :=
  (List.range N).map (fun i => dcfRow base g dr (i + 1))

/-- The DCF model `run_dcf` (lines 126–143).  Python error behaviour is
made explicit: `disc` at line 133 raises `ZeroDivisionError` when the
discount factor `1 + discount_rate/100` is zero (and at least one loop
iteration runs); `rows[-1]` at line 138 raises `IndexError` when the
loop ran zero times; the terminal-value division at line 139 raises
`ZeroDivisionError` when `discount_rate/100 - terminal_growth/100` is
zero; `eqv/shares` at line 143 raises `ZeroDivisionError` when
`shares` is zero.  Returns `(ev, eqv, eqv/shares)` otherwise. -/
def run_dcf (s : Snapshot) (a : Assumptions) : Except DcfError (ℚ × ℚ × ℚ) :=
  let base := baseOf s a
  if 1 ≤ a.forecast_years ∧ 1 + a.discount_rate / 100 = 0 then
    Except.error DcfError.zeroDivision
  else
    (dcfRows base a.revenue_growth a.discount_rate a.forecast_years).getLast?.elim
      (Except.error DcfError.indexError)
      (fun r =>
        let last := r.2.1
        if a.discount_rate / 100 - a.terminal_growth / 100 = 0 then
          Except.error DcfError.zeroDivision
        else
          let tv := last * (1 + a.terminal_growth / 100) /
            (a.discount_rate / 100 - a.terminal_growth / 100)
          let dtv := tv / (1 + a.discount_rate / 100) ^ a.forecast_years
          let ev := ((dcfRows base a.revenue_growth a.discount_rate
            a.forecast_years).map (fun t => t.2.2)).sum + dtv
          let eqv := ev + s.cash - s.debt
          if s.shares = 0 then Except.error DcfError.zeroDivision
          else Except.ok (ev, eqv, eqv / s.shares))

/-- The three verdicts named by the spec.  The source (line 173) only
ever produces the first two. -/
inductive Verdict where
  | Undervalued
  | Overvalued
  | FairlyValued
deriving DecidableEq, Repr

/-- Line 172: `pct=(iv-price)/price*100`. -/
def pct (iv price : ℚ) : ℚ := (iv - price) / price * 100

/-- Line 173: `tag="Undervalued" if pct>0 else "Overvalued"`. -/
def tag (iv price : ℚ) : Verdict :=
  if pct iv price > 0 then Verdict.Undervalued else Verdict.Overvalued

/-- The stress test at lines 203–204: `drop=(p1-p0)/p0*100;
sim=price*(1+drop/100)`, with Python's `ZeroDivisionError` when the
historical start price `p0` is zero. -/
def simulateDrawdown (price p0 p1 : ℚ) : Except DcfError (ℚ × ℚ) :=
  if p0 = 0 then Except.error DcfError.zeroDivision
  else
    let drop := (p1 - p0) / p0 * 100
    Except.ok (drop, price * (1 + drop / 100))

/-- The spec's unrounded projection/discount formulas (§4.1), kept for
comparison with the rounding the source actually performs (claim C10):
`sum of exact discounted flows + exact discounted terminal value`,
with the terminal value grown from the exact last projected FCF. -/
def evExactSpec (base g dr tg : ℚ) (N : ℕ) : ℚ :=
  ((List.range N).map
    (fun i => base * (1 + g / 100) ^ (i + 1) / (1 + dr / 100) ^ (i + 1))).sum
  + base * (1 + g / 100) ^ N * (1 + tg / 100) /
      (dr / 100 - tg / 100) / (1 + dr / 100) ^ N

/-- The spec's ebit selection rule (§4.1 `computeFreeCashFlow`):
use the directly supplied ebit when present, otherwise derive it from
revenue and the margin.  Kept for comparison with `ebitUsed` (claim C6). -/
def ebitSpec (s : Snapshot) (a : Assumptions) : ℚ :=
  s.ebit.getD (s.revenue * (a.ebit_margin / 100))

/-! ## Helper lemmas -/

theorem roundHalfEven_eq_down (x : ℚ) (n : ℤ) (h1 : (n : ℚ) ≤ x)
    (h2 : x < (n : ℚ) + 1 / 2) : roundHalfEven x = n := by
  have hfl : ⌊x⌋ = n := Int.floor_eq_iff.mpr ⟨h1, by linarith⟩
  simp only [roundHalfEven, hfl]
  rw [if_pos (by linarith)]

theorem roundHalfEven_eq_up (x : ℚ) (n : ℤ) (h1 : (n : ℚ) + 1 / 2 < x)
    (h2 : x < (n : ℚ) + 1) : roundHalfEven x = n + 1 := by
  have hfl : ⌊x⌋ = n := Int.floor_eq_iff.mpr ⟨by linarith, by linarith⟩
  simp only [roundHalfEven, hfl]
  rw [if_neg (by linarith), if_pos (by linarith)]

theorem round2_eq_down (x : ℚ) (n : ℤ) (h1 : (n : ℚ) ≤ x * 100)
    (h2 : x * 100 < (n : ℚ) + 1 / 2) : round2 x = (n : ℚ) / 100 := by
  rw [round2, roundHalfEven_eq_down (x * 100) n h1 h2]

theorem round2_eq_up (x : ℚ) (n : ℤ) (h1 : (n : ℚ) + 1 / 2 < x * 100)
    (h2 : x * 100 < (n : ℚ) + 1) : round2 x = ((n : ℚ) + 1) / 100 := by
  rw [round2, roundHalfEven_eq_up (x * 100) n h1 h2]; push_cast; ring

theorem dcfRows_zero (b g dr : ℚ) : dcfRows b g dr 0 = [] := rfl

theorem dcfRows_succ (b g dr : ℚ) (n : ℕ) :
    dcfRows b g dr (n + 1) = dcfRows b g dr n ++ [dcfRow b g dr (n + 1)] := by
  simp [dcfRows, List.range_succ]

theorem dcfRows_getLast (b g dr : ℚ) (n : ℕ) :
    (dcfRows b g dr (n + 1)).getLast? = some (dcfRow b g dr (n + 1)) := by
  rw [dcfRows_succ]
  exact List.getLast?_concat _

theorem dcfRows_length (b g dr : ℚ) (n : ℕ) : (dcfRows b g dr n).length = n := by
  simp [dcfRows]

/-- Successful evaluation of `run_dcf`: with at least one forecast year,
a nonzero discount factor, a nonzero rate spread and a nonzero share
count, `run_dcf` returns the tuple built at lines 138–143. -/
theorem run_dcf_ok (s : Snapshot) (a : Assumptions) (m : ℕ)
    (hm : a.forecast_years = m + 1)
    (hdr : 1 + a.discount_rate / 100 ≠ 0)
    (hsub : a.discount_rate / 100 - a.terminal_growth / 100 ≠ 0)
    (hsh : s.shares ≠ 0) :
    run_dcf s a = Except.ok
      (((dcfRows (baseOf s a) a.revenue_growth a.discount_rate
            a.forecast_years).map (fun t => t.2.2)).sum +
          round2 (baseOf s a * (1 + a.revenue_growth / 100) ^ a.forecast_years) *
            (1 + a.terminal_growth / 100) /
            (a.discount_rate / 100 - a.terminal_growth / 100) /
            (1 + a.discount_rate / 100) ^ a.forecast_years,
        ((dcfRows (baseOf s a) a.revenue_growth a.discount_rate
            a.forecast_years).map (fun t => t.2.2)).sum +
          round2 (baseOf s a * (1 + a.revenue_growth / 100) ^ a.forecast_years) *
            (1 + a.terminal_growth / 100) /
            (a.discount_rate / 100 - a.terminal_growth / 100) /
            (1 + a.discount_rate / 100) ^ a.forecast_years + s.cash - s.debt,
        (((dcfRows (baseOf s a) a.revenue_growth a.discount_rate
            a.forecast_years).map (fun t => t.2.2)).sum +
          round2 (baseOf s a * (1 + a.revenue_growth / 100) ^ a.forecast_years) *
            (1 + a.terminal_growth / 100) /
            (a.discount_rate / 100 - a.terminal_growth / 100) /
            (1 + a.discount_rate / 100) ^ a.forecast_years + s.cash - s.debt) /
          s.shares) := by
  simp only [run_dcf]
  rw [if_neg (fun h => hdr h.2)]
  rw [hm, dcfRows_getLast]
  simp only [Option.elim]
  rw [if_neg hsub, if_neg hsh]
  rfl

/-- When the rate spread at line 139 is zero, the terminal-value
division raises `ZeroDivisionError`. -/
theorem run_dcf_err_spread (s : Snapshot) (a : Assumptions) (m : ℕ)
    (hm : a.forecast_years = m + 1)
    (hdr : 1 + a.discount_rate / 100 ≠ 0)
    (hsub : a.discount_rate / 100 - a.terminal_growth / 100 = 0) :
    run_dcf s a = Except.error DcfError.zeroDivision := by
  simp only [run_dcf]
  rw [if_neg (fun h => hdr h.2)]
  rw [hm, dcfRows_getLast]
  simp only [Option.elim]
  rw [if_pos hsub]

/-- When the share count is zero, `eqv/shares` at line 143 raises
`ZeroDivisionError`. -/
theorem run_dcf_err_shares (s : Snapshot) (a : Assumptions) (m : ℕ)
    (hm : a.forecast_years = m + 1)
    (hdr : 1 + a.discount_rate / 100 ≠ 0)
    (hsub : a.discount_rate / 100 - a.terminal_growth / 100 ≠ 0)
    (hsh : s.shares = 0) :
    run_dcf s a = Except.error DcfError.zeroDivision := by
  simp only [run_dcf]
  rw [if_neg (fun h => hdr h.2)]
  rw [hm, dcfRows_getLast]
  simp only [Option.elim]
  rw [if_neg hsub, if_pos hsh]

theorem rate_spread_ne_zero (dr tg : ℚ) (h : dr ≠ tg) : dr / 100 - tg / 100 ≠ 0 := by
  intro hc
  apply h
  have : dr / 100 = tg / 100 := by linarith
  field_simp at this
  exact this

/-! ## Claim theorems -/

/-- C3 (amended): the verdict logic at lines 172–174 produces only two
verdicts: `Undervalued` exactly when the intrinsic value exceeds the
market price (positive percent difference), `Overvalued` otherwise
(including a zero difference); there is no `FairlyValued` threshold. -/
theorem tag_two_verdicts (iv price : ℚ) (hp : 0 < price) :
    (tag iv price = Verdict.Undervalued ↔ price < iv) ∧
    (tag iv price = Verdict.Overvalued ↔ iv ≤ price) := by
  have hpct : 0 < pct iv price ↔ price < iv := by
    unfold pct
    rw [div_mul_eq_mul_div, lt_div_iff₀ hp, zero_mul]
    constructor <;> intro h <;> nlinarith
  by_cases h : pct iv price > 0
  · have hlt : price < iv := hpct.mp h
    simp only [tag]
    rw [if_pos h]
    exact ⟨iff_of_true rfl hlt, iff_of_false (by decide) (not_le.mpr hlt)⟩
  · have hle : iv ≤ price := not_lt.mp (fun hlt => h (hpct.mpr hlt))
    simp only [tag]
    rw [if_neg h]
    exact ⟨iff_of_false (by decide) (not_lt.mpr hle), iff_of_true rfl hle⟩

/-- C3 witness: the spec §8 example — intrinsic value 120 against
market price 100 is `Undervalued`. -/
theorem tag_two_verdicts_witness :
    (tag 120 100 = Verdict.Undervalued ↔ (100 : ℚ) < 120) ∧
    (tag 120 100 = Verdict.Overvalued ↔ (120 : ℚ) ≤ 100) :=
  tag_two_verdicts 120 100 (by norm_num)

/-- C3 counterexample: intrinsic value 105 against market price 100
gives a percent difference of 5, within the claimed 10% band, yet the
code returns `Undervalued`, not `FairlyValued`. -/
theorem tag_fairly_valued_counterexample :
    |pct 105 100| < 10 ∧ tag 105 100 = Verdict.Undervalued ∧
    Verdict.Undervalued ≠ Verdict.FairlyValued := by
  have hp : pct 105 100 = 5 := by norm_num [pct]
  refine ⟨?_, ?_, by decide⟩
  · rw [hp, abs_of_pos (by norm_num : (0 : ℚ) < 5)]
    norm_num
  · simp only [tag]
    rw [if_pos (by rw [hp]; norm_num)]

/-- C6 (amended): line 117 always computes ebit from revenue and the
margin slider, ignoring any directly supplied ebit column; the base
free cash flow is nopat + depreciation − capex − change in working
capital (lines 127–129). -/
theorem ebit_margin_always_used (s : Snapshot) (a : Assumptions) (e : Option ℚ) :
    ebitUsed { s with ebit := e } a = s.revenue * (a.ebit_margin / 100) ∧
    baseOf s a = ebitUsed s a - ebitUsed s a * (a.tax_rate / 100)
      + s.dep - s.capex - s.wc :=
  ⟨rfl, rfl⟩

def sC6 : Snapshot :=
  { ebit := some 999, revenue := 1000, cash := 0, debt := 0, shares := 1,
    capex := 0, dep := 0, wc := 0 }

def aC6 : Assumptions :=
  { revenue_growth := 10, ebit_margin := 20, tax_rate := 25,
    discount_rate := 10, terminal_growth := 3, forecast_years := 5 }

/-- C6 counterexample: a snapshot that directly supplies ebit = 999
(revenue 1000, margin slider 20).  The claimed selection rule
(`ebitSpec`) would use 999, but line 117 (`ebitUsed`) computes 200. -/
theorem ebit_direct_supply_counterexample :
    sC6.ebit = some 999 ∧ ebitUsed sC6 aC6 = 200 ∧ ebitSpec sC6 aC6 = 999 ∧
    ebitUsed sC6 aC6 ≠ ebitSpec sC6 aC6 := by
  have h1 : ebitUsed sC6 aC6 = 200 := by norm_num [ebitUsed, sC6, aC6]
  have h2 : ebitSpec sC6 aC6 = 999 := by norm_num [ebitSpec, sC6, Option.getD]
  refine ⟨rfl, h1, h2, ?_⟩
  rw [h1, h2]
  norm_num

/-- C7: the stress test (lines 203–204) returns
`percentDrop = (p1 - p0)/p0 * 100` and
`simulatedCurrentPrice = price * (1 + percentDrop/100)` whenever the
historical start price is nonzero. -/
theorem simulateDrawdown_eq (price p0 p1 : ℚ) (h : p0 ≠ 0) :
    simulateDrawdown price p0 p1 =
      Except.ok ((p1 - p0) / p0 * 100,
        price * (1 + (p1 - p0) / p0 * 100 / 100)) := by
  simp only [simulateDrawdown]
  rw [if_neg h]

/-- C7 witness: start 100, end 70, current 50 yields a −30% drop and a
simulated price of 35, as the spec's example states. -/
theorem simulateDrawdown_eq_witness :
    simulateDrawdown 50 100 70 = Except.ok (-30, 35) := by
  rw [simulateDrawdown_eq 50 100 70 (by norm_num)]
  norm_num

/-- C9: with no uploaded financials file, `capex`, `dep` and `wc` are
all 0 (lines 121–123), so the base free cash flow of lines 127–129
equals NOPAT (ebit minus tax) exactly. -/
theorem base_fcf_no_upload_eq_nopat (e : Option ℚ) (r c d sh : ℚ) (a : Assumptions) :
    baseOf { ebit := e, revenue := r, cash := c, debt := d, shares := sh,
             capex := 0, dep := 0, wc := 0 } a =
      ebitUsed { ebit := e, revenue := r, cash := c, debt := d, shares := sh,
                 capex := 0, dep := 0, wc := 0 } a -
        ebitUsed { ebit := e, revenue := r, cash := c, debt := d, shares := sh,
                   capex := 0, dep := 0, wc := 0 } a * (a.tax_rate / 100) := by
  simp [baseOf]

theorem dcfRows_one (b g dr : ℚ) : dcfRows b g dr 1 = [dcfRow b g dr 1] := rfl

theorem dcfRows_three (b g dr : ℚ) :
    dcfRows b g dr 3 = [dcfRow b g dr 1, dcfRow b g dr 2, dcfRow b g dr 3] := rfl

/-- C1 (amended): `run_dcf` performs no precondition check on the
rates.  The terminal-value computation (line 139) fails — with a raised
division-by-zero, not an `InvalidAssumptions` validation — exactly when
`discount_rate = terminal_growth`; for every other pair, including
`discount_rate < terminal_growth`, a terminal value is silently
computed and the run succeeds. -/
theorem run_dcf_terminal_equal_rates_amended (s : Snapshot) (a : Assumptions)
    (hN : 1 ≤ a.forecast_years) (hdr : 1 + a.discount_rate / 100 ≠ 0)
    (hsh : s.shares ≠ 0) :
    (a.discount_rate = a.terminal_growth →
      run_dcf s a = Except.error DcfError.zeroDivision) ∧
    (a.discount_rate ≠ a.terminal_growth → (run_dcf s a).isOk = true) := by
  obtain ⟨m, hm⟩ : ∃ m, a.forecast_years = m + 1 := ⟨a.forecast_years - 1, by omega⟩
  constructor
  · intro he
    exact run_dcf_err_spread s a m hm hdr (by rw [he]; ring)
  · intro hne
    rw [run_dcf_ok s a m hm hdr (rate_spread_ne_zero _ _ hne) hsh]
    rfl

def sC1 : Snapshot :=
  { ebit := none, revenue := 1000, cash := 200, debt := 100, shares := 50,
    capex := 100, dep := 50, wc := -20 }

def aC1 : Assumptions :=
  { revenue_growth := 10, ebit_margin := 20, tax_rate := 25,
    discount_rate := 10, terminal_growth := 10, forecast_years := 5 }

/-- C1 witness: with discount rate = terminal growth = 10 the run fails
with the raised division-by-zero. -/
theorem run_dcf_terminal_equal_rates_amended_witness :
    run_dcf sC1 aC1 = Except.error DcfError.zeroDivision :=
  (run_dcf_terminal_equal_rates_amended sC1 aC1 (by norm_num [aC1])
    (by norm_num [aC1]) (by norm_num [sC1])).1 rfl

def sC1x : Snapshot :=
  { ebit := none, revenue := 1000, cash := 0, debt := 0, shares := 1,
    capex := 0, dep := 0, wc := 0 }

def aC1x : Assumptions :=
  { revenue_growth := 0, ebit_margin := 20, tax_rate := 0,
    discount_rate := 5, terminal_growth := 10, forecast_years := 1 }

/-- C1 counterexample: discount rate 5 ≤ terminal growth 10, yet the
run succeeds — a (negative-perpetuity) terminal value is silently
computed, contradicting the claimed `InvalidAssumptions` failure. -/
theorem run_dcf_negative_spread_silent_counterexample :
    aC1x.discount_rate ≤ aC1x.terminal_growth ∧
    (run_dcf sC1x aC1x).isOk = true := by
  refine ⟨by norm_num [aC1x], ?_⟩
  rw [run_dcf_ok sC1x aC1x 0 rfl (by norm_num [aC1x]) (by norm_num [aC1x])
    (by norm_num [sC1x])]
  rfl

/-- C2 (amended): `run_dcf` performs no share-count validation.  With
the other divisions well-defined, the run fails — with a raised
division-by-zero at `eqv/shares` (line 143), not an `InvalidSnapshot`
validation — exactly when `shares = 0`; for every nonzero share count,
including negative ones, it silently divides and succeeds. -/
theorem run_dcf_zero_shares_amended (s : Snapshot) (a : Assumptions)
    (hN : 1 ≤ a.forecast_years) (hdr : 1 + a.discount_rate / 100 ≠ 0)
    (hsub : a.discount_rate / 100 - a.terminal_growth / 100 ≠ 0) :
    (s.shares = 0 → run_dcf s a = Except.error DcfError.zeroDivision) ∧
    (s.shares ≠ 0 → (run_dcf s a).isOk = true) := by
  obtain ⟨m, hm⟩ : ∃ m, a.forecast_years = m + 1 := ⟨a.forecast_years - 1, by omega⟩
  exact ⟨fun h0 => run_dcf_err_shares s a m hm hdr hsub h0,
    fun hne => by rw [run_dcf_ok s a m hm hdr hsub hne]; rfl⟩

def sC2 : Snapshot :=
  { ebit := none, revenue := 1000, cash := 200, debt := 100, shares := 0,
    capex := 100, dep := 50, wc := -20 }

def aC2 : Assumptions :=
  { revenue_growth := 10, ebit_margin := 20, tax_rate := 25,
    discount_rate := 10, terminal_growth := 3, forecast_years := 5 }

/-- C2 witness: a zero share count makes the run fail with the raised
division-by-zero. -/
theorem run_dcf_zero_shares_amended_witness :
    run_dcf sC2 aC2 = Except.error DcfError.zeroDivision :=
  (run_dcf_zero_shares_amended sC2 aC2 (by norm_num [aC2]) (by norm_num [aC2])
    (by norm_num [aC2])).1 rfl

def sC2x : Snapshot :=
  { ebit := none, revenue := 1000, cash := 0, debt := 0, shares := -50,
    capex := 0, dep := 0, wc := 0 }

def aC2x : Assumptions :=
  { revenue_growth := 10, ebit_margin := 20, tax_rate := 25,
    discount_rate := 10, terminal_growth := 3, forecast_years := 1 }

/-- C2 counterexample: sharesOutstanding = −50 ≤ 0, yet `run_dcf`
silently divides the equity value by the negative share count and
returns a result instead of failing. -/
theorem run_dcf_negative_shares_counterexample :
    sC2x.shares < 0 ∧
    run_dcf sC2x aC2x = Except.ok (16500 / 7, 16500 / 7, -330 / 7) := by
  refine ⟨by norm_num [sC2x], ?_⟩
  rw [run_dcf_ok sC2x aC2x 0 rfl (by norm_num [aC2x]) (by norm_num [aC2x])
    (by norm_num [sC2x])]
  have hb : baseOf sC2x aC2x = 150 := by norm_num [baseOf, ebitUsed, sC2x, aC2x]
  rw [hb]
  simp only [sC2x, aC2x]
  simp only [dcfRows_one, dcfRow, List.map_cons, List.map_nil, List.sum_cons,
    List.sum_nil]
  norm_num
  rw [round2_eq_down 150 15000 (by norm_num) (by norm_num),
    round2_eq_down 165 16500 (by norm_num) (by norm_num)]
  norm_num

/-- C4 (amended): the projection loop (lines 130–134) returns exactly N
rows ordered by year 1..N, but each stored value is rounded to 2
decimal places: row y holds `round(base*(1+g/100)^y, 2)` and
`round(base*(1+g/100)^y/(1+dr/100)^y, 2)` (the discounted value is
computed from the unrounded projection, then rounded). -/
theorem dcfRows_rounded_entries (b g dr : ℚ) (N : ℕ) :
    (dcfRows b g dr N).length = N ∧
    ∀ i, i < N → (dcfRows b g dr N).get? i =
      some (i + 1, round2 (b * (1 + g / 100) ^ (i + 1)),
        round2 (b * (1 + g / 100) ^ (i + 1) / (1 + dr / 100) ^ (i + 1))) := by
  refine ⟨dcfRows_length b g dr N, fun i hi => ?_⟩
  rw [List.get?_eq_getElem?]
  simp only [dcfRows, List.getElem?_map, dcfRow]
  rw [List.getElem?_range hi]
  rfl

/-- C4 witness: the spec §8 example — base 120, growth 10%, discount
10%: five rows, the first being year 1 with projected 132 and
discounted 120. -/
theorem dcfRows_rounded_entries_witness :
    (dcfRows 120 10 10 5).length = 5 ∧
    (dcfRows 120 10 10 5).get? 0 = some (1, 132, 120) := by
  obtain ⟨hlen, hget⟩ := dcfRows_rounded_entries 120 10 10 5
  refine ⟨hlen, ?_⟩
  rw [hget 0 (by norm_num)]
  norm_num
  rw [round2_eq_down 132 13200 (by norm_num) (by norm_num),
    round2_eq_down 120 12000 (by norm_num) (by norm_num)]
  norm_num

/-- C4 counterexample: base 1, growth 10%, discount 0%, three years —
the year-3 entry stores 1.33, not the exact value 1.1³ = 1.331 the
claim asserts. -/
theorem dcfRows_exact_value_counterexample :
    (dcfRows 1 10 0 3).get? 2 = some (3, 133 / 100, 133 / 100) ∧
    (1 : ℚ) * (1 + 10 / 100) ^ 3 ≠ 133 / 100 := by
  constructor
  · rw [dcfRows_three]
    show some (dcfRow 1 10 0 3) = _
    simp only [dcfRow]
    norm_num
    rw [round2_eq_down (1331 / 1000) 133 (by norm_num) (by norm_num)]
    norm_num
  · norm_num

/-- C5: for a positive share count and discount rate strictly above
terminal growth (with at least one forecast year and a nonzero discount
factor), `run_dcf` succeeds and returns enterpriseValue = sum of the
(stored, rounded) discounted cash flows + discounted terminal value,
equityValue = enterpriseValue + cash − debt, and
intrinsicValuePerShare = equityValue / shares (lines 138–143). -/
theorem run_dcf_valuate_eq (s : Snapshot) (a : Assumptions)
    (hsh : 0 < s.shares) (htg : a.terminal_growth < a.discount_rate)
    (hN : 1 ≤ a.forecast_years) (hdr : 1 + a.discount_rate / 100 ≠ 0) :
    ∃ p : ℚ × ℚ × ℚ, run_dcf s a = Except.ok p ∧
      p.1 = ((dcfRows (baseOf s a) a.revenue_growth a.discount_rate
          a.forecast_years).map (fun t => t.2.2)).sum +
        round2 (baseOf s a * (1 + a.revenue_growth / 100) ^ a.forecast_years) *
          (1 + a.terminal_growth / 100) /
          (a.discount_rate / 100 - a.terminal_growth / 100) /
          (1 + a.discount_rate / 100) ^ a.forecast_years ∧
      p.2.1 = p.1 + s.cash - s.debt ∧
      p.2.2 = p.2.1 / s.shares := by
  obtain ⟨m, hm⟩ : ∃ m, a.forecast_years = m + 1 := ⟨a.forecast_years - 1, by omega⟩
  have hne : a.discount_rate ≠ a.terminal_growth := ne_of_gt htg
  exact ⟨_, run_dcf_ok s a m hm hdr (rate_spread_ne_zero _ _ hne) (ne_of_gt hsh),
    rfl, rfl, rfl⟩

def sC5 : Snapshot :=
  { ebit := none, revenue := 1000, cash := 200, debt := 100, shares := 50,
    capex := 100, dep := 50, wc := -20 }

def aC5 : Assumptions :=
  { revenue_growth := 10, ebit_margin := 20, tax_rate := 25,
    discount_rate := 10, terminal_growth := 3, forecast_years := 5 }

/-- C5 witness: the spec §8 example snapshot (revenue 1000, margin 20%,
tax 25%, dep 50, capex 100, ΔWC −20, discount 10%, terminal growth 3%,
5 years, cash 200, debt 100, shares 50). -/
theorem run_dcf_valuate_eq_witness :
    ∃ p : ℚ × ℚ × ℚ, run_dcf sC5 aC5 = Except.ok p ∧
      p.1 = ((dcfRows (baseOf sC5 aC5) aC5.revenue_growth aC5.discount_rate
          aC5.forecast_years).map (fun t => t.2.2)).sum +
        round2 (baseOf sC5 aC5 * (1 + aC5.revenue_growth / 100) ^ aC5.forecast_years) *
          (1 + aC5.terminal_growth / 100) /
          (aC5.discount_rate / 100 - aC5.terminal_growth / 100) /
          (1 + aC5.discount_rate / 100) ^ aC5.forecast_years ∧
      p.2.1 = p.1 + sC5.cash - sC5.debt ∧
      p.2.2 = p.2.1 / sC5.shares :=
  run_dcf_valuate_eq sC5 aC5 (by norm_num [sC5]) (by norm_num [aC5])
    (by norm_num [aC5]) (by norm_num [aC5])

/-- C8: doubling the share count, all else equal, leaves enterprise and
equity value unchanged and exactly halves the intrinsic value per share
(line 143 divides the shares-independent equity value by the count). -/
theorem run_dcf_doubling_shares_halves_iv (s : Snapshot) (a : Assumptions)
    (hsh : 0 < s.shares) (hN : 1 ≤ a.forecast_years)
    (hdr : 1 + a.discount_rate / 100 ≠ 0)
    (hsub : a.discount_rate / 100 - a.terminal_growth / 100 ≠ 0) :
    ∃ ev eqv iv, run_dcf s a = Except.ok (ev, eqv, iv) ∧
      run_dcf { s with shares := 2 * s.shares } a = Except.ok (ev, eqv, iv / 2) := by
  obtain ⟨m, hm⟩ : ∃ m, a.forecast_years = m + 1 := ⟨a.forecast_years - 1, by omega⟩
  have h1 := run_dcf_ok s a m hm hdr hsub (ne_of_gt hsh)
  have h2 := run_dcf_ok { s with shares := 2 * s.shares } a m hm hdr hsub
    (mul_ne_zero two_ne_zero (ne_of_gt hsh))
  refine ⟨_, _, _, h1, ?_⟩
  rw [h2]
  have key : ∀ q sh : ℚ, q / (2 * sh) = q / sh / 2 := fun q sh => by
    rw [div_div, mul_comm sh 2]
  exact congrArg Except.ok (Prod.ext rfl (Prod.ext rfl (key _ _)))

def sC8 : Snapshot :=
  { ebit := none, revenue := 1000, cash := 200, debt := 100, shares := 50,
    capex := 100, dep := 50, wc := -20 }

def aC8 : Assumptions :=
  { revenue_growth := 10, ebit_margin := 20, tax_rate := 25,
    discount_rate := 10, terminal_growth := 3, forecast_years := 5 }

/-- C8 witness: the §8 example snapshot with 50 shares against the same
snapshot with 100 shares. -/
theorem run_dcf_doubling_shares_halves_iv_witness :
    ∃ ev eqv iv, run_dcf sC8 aC8 = Except.ok (ev, eqv, iv) ∧
      run_dcf { sC8 with shares := 2 * sC8.shares } aC8 =
        Except.ok (ev, eqv, iv / 2) :=
  run_dcf_doubling_shares_halves_iv sC8 aC8 (by norm_num [sC8])
    (by norm_num [aC8]) (by norm_num [aC8]) (by norm_num [aC8])

def sC10 : Snapshot :=
  { ebit := none, revenue := 1000, cash := 0, debt := 0, shares := 1,
    capex := 0, dep := 0, wc := 0 }

def aC10 : Assumptions :=
  { revenue_growth := 3, ebit_margin := 10, tax_rate := 0,
    discount_rate := 10, terminal_growth := 0, forecast_years := 3 }

/-- C10: the stored yearly values are rounded to 2 decimal places
before use — the enterprise value sums the rounded discounted flows and
grows the terminal value from the rounded last projection — so the
result differs from the spec's unrounded formulas: base 100, growth 3%,
discount 10%, 3 years gives 72165601/66550 ≈ 1084.38 from the code but
1312117/1210 ≈ 1084.39 unrounded. -/
theorem run_dcf_rounding_differs_from_exact :
    baseOf sC10 aC10 = 100 ∧
    run_dcf sC10 aC10 =
      Except.ok (72165601 / 66550, 72165601 / 66550, 72165601 / 66550) ∧
    evExactSpec 100 3 10 0 3 = 1312117 / 1210 ∧
    (72165601 / 66550 : ℚ) ≠ 1312117 / 1210 := by
  have hb : baseOf sC10 aC10 = 100 := by norm_num [baseOf, ebitUsed, sC10, aC10]
  refine ⟨hb, ?_, ?_, by norm_num⟩
  · rw [run_dcf_ok sC10 aC10 2 rfl (by norm_num [aC10]) (by norm_num [aC10])
      (by norm_num [sC10])]
    rw [hb]
    simp only [sC10, aC10]
    simp only [dcfRows_three, dcfRow, List.map_cons, List.map_nil,
      List.sum_cons, List.sum_nil]
    norm_num
    rw [round2_eq_up (1030 / 11) 9363 (by norm_num) (by norm_num),
      round2_eq_up (10609 / 121) 8767 (by norm_num) (by norm_num),
      round2_eq_up (1092727 / 13310) 8209 (by norm_num) (by norm_num),
      round2_eq_down (1092727 / 10000) 10927 (by norm_num) (by norm_num)]
    norm_num
  · simp only [evExactSpec, show List.range 3 = [0, 1, 2] from rfl,
      List.map_cons, List.map_nil, List.sum_cons, List.sum_nil]
    norm_num
